import Mathlib

/-!
Shallow embedding of the AI-Resume-Analyzer core pipeline
(`services/analyzer.py` and `services/suggestions.py`).

Python strings are modelled as Lean `String` / `List Char` restricted to the
ASCII behaviour of `str.lower`, `\w`, `\s`, `\d` (all texts the program's
vocabulary and patterns care about are ASCII).  Python floats are modelled as
`ℚ`; `round(x, 1)` is modelled as round-half-to-even at one decimal place.
Python `set` values are modelled as duplicate-free lists (first occurrence
kept); all claims about set-derived data are stated set-wise, never about
iteration order, which CPython leaves unspecified.
-/

/- ### ASCII character helpers -/

def lowerChar (c : Char) : Char :=
  if 65 ≤ c.toNat ∧ c.toNat ≤ 90 then Char.ofNat (c.toNat + 32) else c

def upperChar (c : Char) : Char :=
  if 97 ≤ c.toNat ∧ c.toNat ≤ 122 then Char.ofNat (c.toNat - 32) else c

/-- Model of Python `str.lower()` (ASCII range). -/
def toLowerStr (s : String) : String := String.mk (s.data.map lowerChar)

/-- Python `\s` / `str.split()` whitespace (ASCII). -/
def isSpaceB (c : Char) : Bool :=
  c == ' ' || c == '\t' || c == '\n' || c == '\x0d' || c == '\x0b' || c == '\x0c'

def isDigitB (c : Char) : Bool := '0' ≤ c && c ≤ '9'

def isAlphaB (c : Char) : Bool :=
  ('a' ≤ c && c ≤ 'z') || ('A' ≤ c && c ≤ 'Z')

/-- Python `\w` (ASCII): letters, digits, underscore. -/
def isWordB (c : Char) : Bool := isAlphaB c || isDigitB c || c == '_'

/-- Python `needle in hay` substring test. -/
def substrL (needle : List Char) : List Char → Bool
  | [] => needle.isEmpty
  | c :: t => needle.isPrefixOf (c :: t) || substrL needle t

def substrS (needle hay : String) : Bool := substrL needle.data hay.data

/-- Python `str.split()` with no argument: split on whitespace runs. -/
def pySplitAux : List Char → List Char → List (List Char)
  | acc, [] => if acc.isEmpty then [] else [acc.reverse]
  | acc, c :: cs =>
      if isSpaceB c then
        if acc.isEmpty then pySplitAux [] cs else acc.reverse :: pySplitAux [] cs
      else pySplitAux (c :: acc) cs

def pySplit (t : List Char) : List (List Char) := pySplitAux [] t

/-- Python `str.strip()` (whitespace from both ends). -/
def pyStrip (t : List Char) : List Char :=
  ((t.dropWhile isSpaceB).reverse.dropWhile isSpaceB).reverse

/- ### Vocabulary data (`services/analyzer.py` lines 4-108) -/

def SKILL_ALIASES : List (String × String) :=
  [("js", "javascript"), ("ts", "typescript"), ("py", "python"),
   ("node", "node.js"), ("nodejs", "node.js"), ("react.js", "react"),
   ("reactjs", "react"), ("vue.js", "vue"), ("vuejs", "vue"),
   ("angular.js", "angular"), ("angularjs", "angular"),
   ("postgres", "postgresql"), ("mongo", "mongodb"), ("k8s", "kubernetes"),
   ("ml", "machine learning"), ("dl", "deep learning"),
   ("ai", "artificial intelligence"), ("nlp", "natural language processing"),
   ("cv", "computer vision"), ("aws", "amazon web services"),
   ("gcp", "google cloud platform"), ("ci/cd", "ci/cd"), ("cicd", "ci/cd"),
   ("dotnet", ".net"), ("csharp", "c#"), ("cpp", "c++"), ("golang", "go"),
   ("tf", "terraform"), ("ui", "ui/ux"), ("ux", "ui/ux")]

def PROGRAMMING_LANGUAGES : List String :=
  ["python", "java", "javascript", "typescript", "c++", "c#", "go", "rust",
   "ruby", "php", "swift", "kotlin", "scala", "r programming", "matlab",
   "perl", "bash", "shell scripting", "powershell", "objective-c", "dart"]

def FRAMEWORKS_LIBRARIES : List String :=
  ["react", "angular", "vue", "node.js", "express", "django", "flask",
   "fastapi", "spring", "spring boot", ".net", "rails", "laravel",
   "next.js", "nuxt.js", "svelte", "jquery", "bootstrap", "tailwind",
   "material ui", "redux", "mobx", "graphql", "rest api"]

def DATABASES : List String :=
  ["sql", "mysql", "postgresql", "mongodb", "redis", "elasticsearch",
   "cassandra", "dynamodb", "oracle", "sqlite", "neo4j", "firebase",
   "snowflake", "bigquery", "couchdb", "mariadb"]

def CLOUD_DEVOPS : List String :=
  ["aws", "amazon web services", "azure", "gcp", "google cloud platform",
   "docker", "kubernetes", "jenkins", "terraform", "ansible", "ci/cd",
   "github actions", "gitlab ci", "circleci", "nginx", "apache",
   "linux", "unix", "devops", "microservices", "serverless"]

def DATA_AI_ML : List String :=
  ["machine learning", "deep learning", "artificial intelligence",
   "data analysis", "data science", "pandas", "numpy", "tensorflow",
   "pytorch", "keras", "scikit-learn", "natural language processing",
   "computer vision", "opencv", "hadoop", "spark", "airflow",
   "power bi", "tableau", "excel", "data visualization", "statistics"]

def TOOLS_PLATFORMS : List String :=
  ["git", "github", "gitlab", "bitbucket", "jira", "confluence",
   "slack", "figma", "adobe xd", "photoshop", "illustrator",
   "vs code", "intellij", "postman", "swagger", "jupyter"]

def SOFT_SKILLS : List String :=
  ["communication", "teamwork", "leadership", "problem solving",
   "time management", "critical thinking", "adaptability", "creativity",
   "collaboration", "attention to detail", "project management",
   "analytical skills", "interpersonal skills", "decision making",
   "conflict resolution", "presentation skills", "negotiation",
   "customer service", "mentoring", "strategic thinking",
   "public speaking", "technical writing", "research", "agile", "scrum"]

def ALL_SKILLS : List String :=
  PROGRAMMING_LANGUAGES ++ FRAMEWORKS_LIBRARIES ++ DATABASES ++
    CLOUD_DEVOPS ++ DATA_AI_ML ++ TOOLS_PLATFORMS ++ SOFT_SKILLS

/-- Dict `EXPERIENCE_LEVELS`, in Python insertion order. -/
def EXPERIENCE_LEVELS : List (String × List String) :=
  [("entry", ["entry level", "junior", "associate", "intern", "internship",
              "fresher", "graduate", "0-1 years", "0-2 years", "beginner"]),
   ("mid", ["mid level", "mid-level", "intermediate", "2-4 years", "3-5 years",
            "2+ years", "3+ years", "4+ years"]),
   ("senior", ["senior", "lead", "principal", "staff", "architect",
               "5+ years", "6+ years", "7+ years", "8+ years", "10+ years",
               "expert", "advanced"])]

/-- Dict `EDUCATION_KEYWORDS`, in Python insertion order. -/
def EDUCATION_KEYWORDS : List (String × List String) :=
  [("phd", ["phd", "ph.d", "doctorate", "doctoral"]),
   ("masters", ["master", "ms", "m.s", "msc", "m.sc", "mba", "ma", "m.a"]),
   ("bachelors", ["bachelor", "bs", "b.s", "bsc", "b.sc", "ba", "b.a",
                  "btech", "b.tech", "be", "b.e"]),
   ("degree", ["degree", "graduate", "graduated", "university", "college"])]

/- ### Text normalizer (`preprocess_text`, lines 111-117) -/

/-- Character class of `re.sub` pattern one: slash, backslash, pipe, comma,
semicolon, colon, hyphen, parentheses, square and curly brackets. -/
def isSeparator1 (c : Char) : Bool :=
  c == '/' || c == '\\' || c == '|' || c == ',' || c == ';' || c == ':' ||
    c == '-' || c == '(' || c == ')' || c == '[' || c == ']' ||
    c == '\x7b' || c == '\x7d'

/-- Complement class of `re.sub` pattern two: anything that is not a word
character, whitespace, dot, plus or hash is replaced with a space. -/
def isKept2 (c : Char) : Bool :=
  isWordB c || isSpaceB c || c == '.' || c == '+' || c == '#'

def preprocessChars (t : List Char) : List Char :=
  let t1 := t.map lowerChar
  let t2 := t1.map (fun c => if isSeparator1 c then ' ' else c)
  let t3 := t2.map (fun c => if isKept2 c then c else ' ')
  (List.intersperse [' '] (pySplit t3)).flatten

def preprocess_text (text : String) : String := String.mk (preprocessChars text.data)

/- ### Alias normalization (`normalize_skill`, lines 120-123) -/

def normalize_skill (skill : String) : String :=
  let skill_lower := String.mk ((pyStrip skill.data).map lowerChar)
  ((SKILL_ALIASES.find? (fun p => p.1 == skill_lower)).map (·.2)).getD skill_lower

/- ### Boundary-aware skill matcher

`extract_skills` and `get_skill_frequency` search the regex
`(?:^|[\s,;:\-\(\)\[\]]) skill (?:$|[\s,;:\-\(\)\[\]])` over the processed
text padded with one space on each side.  The scanners below implement
Python `re` leftmost, non-overlapping matching for exactly that pattern,
including the preference order of the alternatives (`^` and `$` first). -/

def isBoundaryB (c : Char) : Bool :=
  isSpaceB c || c == ',' || c == ';' || c == ':' || c == '-' ||
    c == '(' || c == ')' || c == '[' || c == ']'

/-- Trailing `(?:$|[...])` at `rest`: `$` matches at the end (or before a
final newline), consuming nothing; otherwise one boundary character is
consumed.  Returns the remaining text when the alternative matches. -/
def tailBoundary : List Char → Option (List Char)
  | [] => some []
  | ['\n'] => some ['\n']
  | c :: cs => if isBoundaryB c then some cs else none

/-- Try to match the whole bounded-skill pattern starting exactly at `t`.
`atStart` records whether `t` is the very beginning of the searched string
(where the zero-width `^` alternative is available).  Returns the text
remaining after the match. -/
def tryBounded (skill : List Char) (atStart : Bool) (t : List Char) : Option (List Char) :=
  let viaCaret : Option (List Char) :=
    if atStart ∧ skill.isPrefixOf t then tailBoundary (t.drop skill.length) else none
  let viaChar : Option (List Char) :=
    match t with
    | [] => none
    | c :: cs =>
        if isBoundaryB c ∧ skill.isPrefixOf cs then tailBoundary (cs.drop skill.length)
        else none
  viaCaret <|> viaChar

/-- One step of `re.search`: does any position admit a match? -/
def searchBoundedAux (skill : List Char) : Bool → List Char → Bool
  | atStart, [] => (tryBounded skill atStart []).isSome
  | atStart, c :: cs =>
      (tryBounded skill atStart (c :: cs)).isSome || searchBoundedAux skill false cs

/-- `re.search` of the bounded pattern over `' ' + text + ' '`. -/
def searchBounded (skill : List Char) (text : List Char) : Bool :=
  searchBoundedAux skill true (' ' :: (text ++ [' ']))

/-- Fuelled `re.findall` match counter for the bounded pattern: leftmost
match, then continue after its end.  Every match consumes at least one
character, so `fuel = length + 1` is enough. -/
def countBoundedAux (skill : List Char) : Nat → Bool → List Char → Nat
  | 0, _, _ => 0
  | fuel + 1, atStart, t =>
      match tryBounded skill atStart t with
      | some rest => 1 + countBoundedAux skill fuel false rest
      | none =>
          match t with
          | [] => 0
          | _ :: cs => countBoundedAux skill fuel false cs

def countBounded (skill : List Char) (text : List Char) : Nat :=
  let padded := ' ' :: (text ++ [' '])
  countBoundedAux skill (padded.length + 1) true padded

/- ### Skill extraction (`extract_skills`, lines 126-149) -/

/-- The alias-expansion loop: for each whitespace token of the processed
text, if normalizing changes it, append one space and the canonical form to
the end of the processed text. -/
def aliasExpand (tp : List Char) : List Char :=
  (pySplit tp).foldl
    (fun acc w =>
      let n := (normalize_skill (String.mk w)).data
      if n ≠ w then acc ++ (' ' :: n) else acc)
    tp

def extract_skills (text : String) (skill_list : List String := ALL_SKILLS) :
    List String :=
  let text_processed := aliasExpand (preprocessChars text.data)
  skill_list.filter (fun skill => searchBounded (toLowerStr skill).data text_processed)

/- ### Skill frequency (`get_skill_frequency`, lines 152-165) -/

def get_skill_frequency (text : String) (skills : List String) :
    List (String × Nat) :=
  let text_processed := preprocessChars text.data
  skills.filterMap (fun skill =>
    let n := countBounded (toLowerStr skill).data text_processed
    if n ≠ 0 then some (skill, n) else none)

/-- Python `dict.get(k, default)` over the association-list model. -/
def dictGet (d : List (String × Nat)) (k : String) (dflt : Nat) : Nat :=
  ((d.find? (fun p => p.1 == k)).map (·.2)).getD dflt

/- ### Experience level (`detect_experience_level`, lines 168-186) -/

def detect_experience_level (text : String) : String :=
  let text_lower := toLowerStr text
  let detected := EXPERIENCE_LEVELS.foldl
    (fun acc p => if p.2.any (fun k => substrS k text_lower) then acc ++ [p.1] else acc) []
  if detected = [] then "not specified"
  else if detected.contains "senior" then "senior"
  else if detected.contains "mid" then "mid"
  else "entry"

/- ### Years of experience (`extract_years_experience`, lines 189-203)

The three patterns are implemented as deterministic scanners.  For each of
them the greedy/backtracking behaviour of Python `re` collapses to maximal
munch, because no alternative can begin with a character of the class that
precedes it; the only genuine backtracking point (the
`minimum|at least|min` alternation of pattern two) is implemented by trying
the alternatives in order. -/

/-- Maximal run of decimal digits: the digits and the rest. -/
def takeDigits (t : List Char) : List Char × List Char :=
  (t.takeWhile isDigitB, t.dropWhile isDigitB)

/-- Maximal run of `\s*`. -/
def skipWs (t : List Char) : List Char := t.dropWhile isSpaceB

def digitsToNat (ds : List Char) : Nat :=
  ds.foldl (fun a c => a * 10 + (c.toNat - 48)) 0

/-- `(?:years?|yrs?)` with the preference order years, year, yrs, yr. -/
def tryYearsWord (t : List Char) : Option (List Char) :=
  if "years".data.isPrefixOf t then some (t.drop 5)
  else if "year".data.isPrefixOf t then some (t.drop 4)
  else if "yrs".data.isPrefixOf t then some (t.drop 3)
  else if "yr".data.isPrefixOf t then some (t.drop 2)
  else none

/-- Pattern one, `(\d+)\+?\s*(?:years?|yrs?)\s*(?:of)?\s*(?:experience|exp)?`,
attempted at the current position.  Returns the captured integer and the
text after the match. -/
def p1At (t : List Char) : Option (Nat × List Char) :=
  let (ds, r1) := takeDigits t
  if ds.isEmpty then none
  else
    let r2 := match r1 with
              | '+' :: rest => rest
              | rest => rest
    match tryYearsWord (skipWs r2) with
    | none => none
    | some r4 =>
        let r5 := skipWs r4
        let r6 := if "of".data.isPrefixOf r5 then r5.drop 2 else r5
        let r7 := skipWs r6
        let r8 := if "experience".data.isPrefixOf r7 then r7.drop 10
                  else if "exp".data.isPrefixOf r7 then r7.drop 3
                  else r7
        some (digitsToNat ds, r8)

/-- Tail of pattern two after one of the alternatives has been consumed:
`\s*(\d+)\s*(?:years?|yrs?)`. -/
def p2After (t : List Char) : Option (Nat × List Char) :=
  let (ds, r1) := takeDigits (skipWs t)
  if ds.isEmpty then none
  else
    match tryYearsWord (skipWs r1) with
    | none => none
    | some r2 => some (digitsToNat ds, r2)

/-- Pattern two, `(?:minimum|at least|min)\s*(\d+)\s*(?:years?|yrs?)`. -/
def p2At (t : List Char) : Option (Nat × List Char) :=
  (if "minimum".data.isPrefixOf t then p2After (t.drop 7) else none) <|>
  (if "at least".data.isPrefixOf t then p2After (t.drop 8) else none) <|>
  (if "min".data.isPrefixOf t then p2After (t.drop 3) else none)

/-- Pattern three, `(\d+)\s*-\s*\d+\s*(?:years?|yrs?)` (captures the lower
bound). -/
def p3At (t : List Char) : Option (Nat × List Char) :=
  let (ds, r1) := takeDigits t
  if ds.isEmpty then none
  else
    match skipWs r1 with
    | '-' :: r2 =>
        let (ds2, r3) := takeDigits (skipWs r2)
        if ds2.isEmpty then none
        else
          match tryYearsWord (skipWs r3) with
          | none => none
          | some r4 => some (digitsToNat ds, r4)
    | _ => none

/-- Fuelled `re.findall` capture collector: leftmost matches, continue after
each match end.  All three patterns consume at least one character per
match. -/
def findallAux (pAt : List Char → Option (Nat × List Char)) :
    Nat → List Char → List Nat
  | 0, _ => []
  | fuel + 1, t =>
      match pAt t with
      | some (n, rest) => n :: findallAux pAt fuel rest
      | none =>
          match t with
          | [] => []
          | _ :: cs => findallAux pAt fuel cs

def findallCaptures (pAt : List Char → Option (Nat × List Char))
    (t : List Char) : List Nat :=
  findallAux pAt (t.length + 1) t

/-- All integers captured by the three patterns, in the order the Python
code collects them. -/
def yearsCaptured (text : String) : List Nat :=
  let tl := (toLowerStr text).data
  findallCaptures p1At tl ++ findallCaptures p2At tl ++ findallCaptures p3At tl

def extract_years_experience (text : String) : Option Nat :=
  match yearsCaptured text with
  | [] => none
  | h :: t => some (t.foldl min h)

/- ### Education (`detect_education_requirement`, lines 206-217) -/

def detect_education_requirement (text : String) : List String :=
  let text_lower := toLowerStr text
  EDUCATION_KEYWORDS.foldl
    (fun acc p => if p.2.any (fun k => substrS k text_lower) then acc ++ [p.1] else acc) []

/- ### Categorization (`categorize_skills`, lines 220-249) -/

structure Categories where
  programming : List String
  frameworks : List String
  databases : List String
  cloud_devops : List String
  data_ai : List String
  tools : List String
  soft_skills : List String
deriving DecidableEq, Repr

/-- The if/elif chain of `categorize_skills` as a per-skill tag: the first
category whose lowercased list contains the lowercased skill (0 = none). -/
def skillCat (s : String) : Nat :=
  let sl := toLowerStr s
  if (PROGRAMMING_LANGUAGES.map toLowerStr).contains sl then 1
  else if (FRAMEWORKS_LIBRARIES.map toLowerStr).contains sl then 2
  else if (DATABASES.map toLowerStr).contains sl then 3
  else if (CLOUD_DEVOPS.map toLowerStr).contains sl then 4
  else if (DATA_AI_ML.map toLowerStr).contains sl then 5
  else if (TOOLS_PLATFORMS.map toLowerStr).contains sl then 6
  else if (SOFT_SKILLS.map toLowerStr).contains sl then 7
  else 0

def categorize_skills (skills : List String) : Categories :=
  { programming := skills.filter (fun s => skillCat s == 1)
    frameworks := skills.filter (fun s => skillCat s == 2)
    databases := skills.filter (fun s => skillCat s == 3)
    cloud_devops := skills.filter (fun s => skillCat s == 4)
    data_ai := skills.filter (fun s => skillCat s == 5)
    tools := skills.filter (fun s => skillCat s == 6)
    soft_skills := skills.filter (fun s => skillCat s == 7) }

/- ### Match scoring (`calculate_match`, lines 252-276) -/

/-- Round-half-to-even to an integer (the rounding the spec assigns to the
runtime of the source). -/
def pyRoundHalfEven (q : ℚ) : ℤ :=
  if q - ⌊q⌋ < 1 / 2 then ⌊q⌋
  else if 1 / 2 < q - ⌊q⌋ then ⌊q⌋ + 1
  else if Even ⌊q⌋ then ⌊q⌋ else ⌊q⌋ + 1

/-- Python `round(x, 1)` over the rational model. -/
def round1 (q : ℚ) : ℚ := (pyRoundHalfEven (q * 10) : ℚ) / 10

/-- Python `set(...)` of a list of strings, as a duplicate-free list. -/
def pySet (l : List String) : List String := l.dedup

/-- Helper `get_original_case` inside `calculate_match`: first vocabulary
entry with the given lowercasing, else the input itself. -/
def get_original_case (skill_lower : String) : String :=
  ((ALL_SKILLS.find? (fun s => toLowerStr s == skill_lower)).getD skill_lower)

def calculate_match (resume_skills jd_skills : List String) :
    ℚ × List String × List String × List String :=
  if jd_skills.isEmpty then (0, [], [], resume_skills)
  else
    let resume_skills_set := pySet (resume_skills.map toLowerStr)
    let jd_skills_set := pySet (jd_skills.map toLowerStr)
    let matched := resume_skills_set.filter (fun s => jd_skills_set.contains s)
    let missing := jd_skills_set.filter (fun s => !resume_skills_set.contains s)
    let extra := resume_skills_set.filter (fun s => !jd_skills_set.contains s)
    let score : ℚ := ((matched.length : ℚ) / (jd_skills_set.length : ℚ)) * 100
    (round1 score, matched.map get_original_case, missing.map get_original_case,
      extra.map get_original_case)

/- ### Orchestrator (`analyze_resume`, lines 279-328) -/

/-- Lexicographic comparison of character lists by code point: the ordinal
string order Python `sorted` uses. -/
def listLeB : List Char → List Char → Bool
  | [], _ => true
  | _ :: _, [] => false
  | a :: as, b :: bs =>
      if a.toNat < b.toNat then true
      else if b.toNat < a.toNat then false
      else listLeB as bs

def strLeB (a b : String) : Bool := listLeB a.data b.data

/-- Python `sorted` on strings (ordinal lexicographic order). -/
def pySorted (l : List String) : List String :=
  l.insertionSort (fun a b => strLeB a b = true)

structure AnalysisResults where
  match_score : ℚ
  matched_skills : List String
  missing_skills : List String
  extra_skills : List String
  high_priority_missing : List String
  matched_categories : Categories
  missing_categories : Categories
  resume_skill_count : Nat
  jd_skill_count : Nat
  jd_experience_level : String
  jd_years_required : Option Nat
  jd_education : List String
  resume_experience_level : String
  resume_education : List String
deriving DecidableEq, Repr

def analyze_resume (resume_text job_description : String) : AnalysisResults :=
  let resume_skills := extract_skills resume_text
  let jd_skills := extract_skills job_description
  let r := calculate_match resume_skills jd_skills
  let score := r.1
  let matched := r.2.1
  let missing := r.2.2.1
  let extra := r.2.2.2
  let jd_skill_freq := get_skill_frequency job_description jd_skills
  let high_priority_missing :=
    missing.filter (fun skill => 2 ≤ dictGet jd_skill_freq skill 0)
  { match_score := score
    matched_skills := pySorted matched
    missing_skills := pySorted missing
    extra_skills := pySorted extra
    high_priority_missing := pySorted high_priority_missing
    matched_categories := categorize_skills matched
    missing_categories := categorize_skills missing
    resume_skill_count := resume_skills.length
    jd_skill_count := jd_skills.length
    jd_experience_level := detect_experience_level job_description
    jd_years_required := extract_years_experience job_description
    jd_education := detect_education_requirement job_description
    resume_experience_level := detect_experience_level resume_text
    resume_education := detect_education_requirement resume_text }

/- ### Suggestion engine data (`services/suggestions.py` lines 8-20) -/

/-- Dict `ACTION_VERBS`, in Python insertion order. -/
def ACTION_VERBS : List (String × List String) :=
  [("leadership", ["led", "managed", "directed", "supervised", "coordinated", "oversaw"]),
   ("achievement", ["achieved", "accomplished", "exceeded", "delivered", "completed"]),
   ("creation", ["created", "designed", "developed", "built", "implemented", "launched"]),
   ("improvement", ["improved", "enhanced", "optimized", "streamlined", "reduced", "increased"]),
   ("technical", ["engineered", "architected", "automated", "integrated", "deployed", "configured"]),
   ("analysis", ["analyzed", "evaluated", "assessed", "researched", "investigated", "identified"])]

def ALL_ACTION_VERBS : List String := (ACTION_VERBS.map (·.2)).flatten

def IMPORTANT_SECTIONS : List String :=
  ["experience", "education", "skills", "projects", "summary", "objective"]

/- ### Micro-detectors (`suggestions.py` lines 23-97) -/

/-- `check_action_verbs`: which verbs of each category occur (as substrings
of the lowercased resume) and the total number of verbs found.  Each verb is
appended at most once, so the total counts distinct verbs present, not
occurrences. -/
def check_action_verbs (resume_text : String) : List (String × List String) × Nat :=
  let text_lower := toLowerStr resume_text
  let found := ACTION_VERBS.map (fun p => (p.1, p.2.filter (fun v => substrS v text_lower)))
  (found, (found.map (fun p => p.2.length)).sum)

/-- Generic fuelled `re.findall` match counter for a deterministic
single-match attempt function; every successful match consumes at least one
character. -/
def countScanAux (tryM : List Char → Option (List Char)) :
    Nat → List Char → Nat
  | 0, _ => 0
  | fuel + 1, t =>
      match tryM t with
      | some rest => 1 + countScanAux tryM fuel rest
      | none =>
          match t with
          | [] => 0
          | _ :: cs => countScanAux tryM fuel cs

def countScan (tryM : List Char → Option (List Char)) (t : List Char) : Nat :=
  countScanAux tryM (t.length + 1) t

/-- Metric pattern `\d+%`. -/
def tryPct (t : List Char) : Option (List Char) :=
  let (ds, r) := takeDigits t
  if ds.isEmpty then none
  else match r with
       | '%' :: rest => some rest
       | _ => none

def isDigitComma (c : Char) : Bool := isDigitB c || c == ','

/-- Metric pattern `\$[\d,]+`. -/
def tryDollar : List Char → Option (List Char)
  | '$' :: r =>
      if (r.takeWhile isDigitComma).isEmpty then none
      else some (r.dropWhile isDigitComma)
  | _ => none

/-- Metric pattern `\d+\+`. -/
def tryPlus (t : List Char) : Option (List Char) :=
  let (ds, r) := takeDigits t
  if ds.isEmpty then none
  else match r with
       | '+' :: rest => some rest
       | _ => none

/-- Metric pattern `\d{2,}`. -/
def tryNum2 (t : List Char) : Option (List Char) :=
  let (ds, r) := takeDigits t
  if 2 ≤ ds.length then some r else none

/-- Metric pattern `#\d+`. -/
def tryRank : List Char → Option (List Char)
  | '#' :: r =>
      let (ds, rest) := takeDigits r
      if ds.isEmpty then none else some rest
  | _ => none

/-- `check_quantifiable_achievements`: total number of matches of the five
metric patterns over the raw resume text.  (The source also returns the
first ten matched strings; the engine never uses them, so only the count is
modelled.) -/
def check_quantifiable_achievements (resume_text : String) : Nat :=
  let t := resume_text.data
  countScan tryPct t + countScan tryDollar t + countScan tryPlus t +
    countScan tryNum2 t + countScan tryRank t

/-- `check_resume_length`: word count by whitespace split, line count by
newline split. -/
def check_resume_length (resume_text : String) : Nat × Nat :=
  ((pySplit resume_text.data).length, resume_text.data.count '\n' + 1)

/-- `check_sections`: sections present / absent in the lowercased resume. -/
def check_sections (resume_text : String) : List String × List String :=
  let text_lower := toLowerStr resume_text
  (IMPORTANT_SECTIONS.filter (fun s => substrS s text_lower),
   IMPORTANT_SECTIONS.filter (fun s => !substrS s text_lower))

def isEmailClass (c : Char) : Bool := isWordB c || c == '.' || c == '-'

/-- Tail of the email pattern after the `@`: `[\w\.-]+\.\w+`, i.e. at least
one class character, then a dot followed by a word character.  The counter
`k` records how many class characters precede the current position. -/
def emailAfterAt : Nat → List Char → Bool
  | _, [] => false
  | k, c :: rest =>
      (c == '.' && k != 0 &&
        (match rest with
         | w :: _ => isWordB w
         | [] => false)) ||
      (isEmailClass c && emailAfterAt (k + 1) rest)

/-- `re.search` of `[\w\.-]+@[\w\.-]+\.\w+`: some `@` is directly preceded
by a class character and followed by a valid domain part. -/
def emailSearchAux : Bool → List Char → Bool
  | prevClass, '@' :: rest => (prevClass && emailAfterAt 0 rest) || emailSearchAux false rest
  | _, c :: rest => emailSearchAux (isEmailClass c) rest
  | _, [] => false

def emailSearch (t : List Char) : Bool := emailSearchAux false t

def isPhoneClass (c : Char) : Bool :=
  isDigitB c || isSpaceB c || c == '-' || c == '(' || c == ')'

/-- One attempt of `[\+]?[\d\s\-\(\)]{10,}` at the current position. -/
def phoneAt : List Char → Bool
  | '+' :: r => 10 ≤ (r.takeWhile isPhoneClass).length
  | r => 10 ≤ (r.takeWhile isPhoneClass).length

def anySuffix (f : List Char → Bool) : List Char → Bool
  | [] => f []
  | c :: cs => f (c :: cs) || anySuffix f cs

structure ContactInfo where
  email : Bool
  phone : Bool
  linkedin : Bool
  github : Bool
  portfolio : Bool
deriving DecidableEq, Repr

/-- `check_contact_info` (lines 70-79). -/
def check_contact_info (resume_text : String) : ContactInfo :=
  let tl := toLowerStr resume_text
  { email := emailSearch resume_text.data
    phone := anySuffix phoneAt resume_text.data
    linkedin := substrS "linkedin" tl
    github := substrS "github" tl
    portfolio := ["portfolio", "website", "blog"].any (fun w => substrS w tl) }

/-- `target` appears after at most 50 further non-newline characters
(`.{0,50}` with `.` not matching newline). -/
def gapThenAux (target : List Char) : Nat → List Char → Bool
  | 0, t => target.isPrefixOf t
  | g + 1, t =>
      target.isPrefixOf t ||
        (match t with
         | [] => false
         | c :: cs => c != '\n' && gapThenAux target g cs)

/-- Some occurrence of `a` is followed, within a gap of at most 50
non-newline characters, by `b`. -/
def nearAfter (a b : List Char) : List Char → Bool
  | [] => a.isEmpty && gapThenAux b 50 []
  | c :: cs =>
      (a.isPrefixOf (c :: cs) && gapThenAux b 50 ((c :: cs).drop a.length)) ||
        nearAfter a b cs

/-- `re.search` of `verb.{0,50}skill|skill.{0,50}verb`. -/
def nearB (verb skill text : List Char) : Bool :=
  nearAfter verb skill text || nearAfter skill verb text

/-- `check_keyword_stuffing` (lines 82-97): how many of the skills occur
within 50 characters of some action verb, and the total number of skills. -/
def check_keyword_stuffing (resume_text : String) (skills : List String) :
    Nat × Nat :=
  let text_lower := (toLowerStr resume_text).data
  let contextual := (skills.filter (fun skill =>
    ALL_ACTION_VERBS.any (fun v => nearB v.data (toLowerStr skill).data text_lower))).length
  (contextual, skills.length)

/- ### The suggestion items and the rule cascade (`generate_suggestions`) -/

structure Suggestion where
  type : String
  category : String
  message : String
deriving DecidableEq, Repr

/-- Apostrophe character, used inside two generated messages. -/
def apos : String := String.singleton (Char.ofNat 39)

/-- Display of the match score inside messages: the score is always a
non-negative multiple of one tenth, printed as Python prints such floats. -/
def formatScore (q : ℚ) : String :=
  let n : ℤ := ⌊q * 10⌋
  toString (n / 10) ++ "." ++ toString (n.natAbs % 10)

/-- Rule 1: the single score-band item (four mutually exclusive, exhaustive
bands). -/
def scoreBandItem (ms : ℚ) : Suggestion :=
  if 80 ≤ ms then
    ⟨"success", "Match Score",
      "Excellent match (" ++ formatScore ms ++ "%)! Your skills align very well with this job. Focus on tailoring your experience descriptions to highlight relevant achievements."⟩
  else if 60 ≤ ms then
    ⟨"info", "Match Score",
      "Good match (" ++ formatScore ms ++ "%)! You have a solid foundation. Adding a few more relevant skills could push your application to the top."⟩
  else if 40 ≤ ms then
    ⟨"warning", "Match Score",
      "Moderate match (" ++ formatScore ms ++ "%). Consider emphasizing transferable skills and any relevant projects or coursework."⟩
  else
    ⟨"danger", "Match Score",
      "Low match (" ++ formatScore ms ++ "%). This role may require skills you haven" ++ apos ++ "t highlighted. Consider if you have relevant experience that isn" ++ apos ++ "t reflected in your resume."⟩

def sugMatchScore (ms : ℚ) : List Suggestion := [scoreBandItem ms]

/-- Rule 2: high-priority missing skills. -/
def sugHighPriority (hpm : List String) : List Suggestion :=
  if hpm.isEmpty then []
  else [⟨"danger", "Critical Skills Gap",
    "These skills are mentioned multiple times in the job description and are likely essential: " ++ String.intercalate ", " (hpm.take 5)⟩]

/-- Rule 3: missing programming languages. -/
def sugMissingProgramming (mc : Categories) : List Suggestion :=
  if mc.programming.isEmpty then []
  else [⟨"warning", "Programming Languages",
    "Missing programming languages: " ++ String.intercalate ", " (mc.programming.take 4) ++ ". If you have experience with similar languages, highlight your ability to learn quickly."⟩]

/-- Rule 4: missing frameworks. -/
def sugMissingFrameworks (mc : Categories) : List Suggestion :=
  if mc.frameworks.isEmpty then []
  else [⟨"warning", "Frameworks",
    "Missing frameworks/libraries: " ++ String.intercalate ", " (mc.frameworks.take 4) ++ ". Consider adding relevant projects to demonstrate these skills."⟩]

/-- Rule 5: missing cloud/DevOps skills. -/
def sugMissingCloud (mc : Categories) : List Suggestion :=
  if mc.cloud_devops.isEmpty then []
  else [⟨"info", "Cloud/DevOps",
    "Missing cloud/DevOps skills: " ++ String.intercalate ", " (mc.cloud_devops.take 4) ++ ". Free tier accounts on AWS/Azure can help you gain hands-on experience."⟩]

/-- Rule 6: experience-level item. -/
def sugExperienceLevel (jel : String) : List Suggestion :=
  if jel ≠ "not specified" then
    [⟨"info", "Experience Level",
      "This appears to be a " ++ jel ++ "-level position. " ++
        (if jel = "senior" then "Highlight your growth and quick learning ability."
         else "Your enthusiasm and recent projects can compensate for less experience.")⟩]
  else []

/-- Rule 7: years-required item (`if jd_years_required:` is Python truthy,
so `0` years behaves like absent). -/
def sugYearsRequired (jyr : Option Nat) : List Suggestion :=
  match jyr with
  | none => []
  | some n =>
      if n ≠ 0 then
        [⟨"info", "Years Required",
          "The job requires approximately " ++ toString n ++ "+ years of experience. Include all relevant experience including internships, freelance work, and significant personal projects."⟩]
      else []

def avWarnItem : Suggestion :=
  ⟨"warning", "Action Verbs",
    "Your resume lacks strong action verbs. Start bullet points with words like: Led, Developed, Implemented, Achieved, Optimized, Delivered."⟩

def avInfoItem (weak : List String) : Suggestion :=
  ⟨"info", "Action Verbs",
    "Consider adding more " ++ String.intercalate ", " (weak.take 2) ++ " action verbs to showcase different aspects of your experience."⟩

/-- Rule 8: action-verb check. -/
def sugActionVerbs (resume_text : String) : List Suggestion :=
  let fv := check_action_verbs resume_text
  if fv.2 < 5 then [avWarnItem]
  else if fv.2 < 10 then
    let weak := (fv.1.filter (fun p => p.2.isEmpty)).map (·.1)
    if weak.isEmpty then [] else [avInfoItem weak]
  else []

/-- Rule 9: quantifiable metrics. -/
def sugMetrics (resume_text : String) : List Suggestion :=
  let n := check_quantifiable_achievements resume_text
  if n = 0 then
    [⟨"warning", "Quantifiable Results",
      "No metrics found! Add numbers to demonstrate impact: \"Increased sales by 25%\", \"Reduced load time by 40%\", \"Managed team of 5\", \"Processed 10K+ records daily\"."⟩]
  else if n < 4 then
    [⟨"info", "Quantifiable Results",
      "Found " ++ toString n ++ " metrics. Try to add more quantifiable achievements to each role - aim for at least 2-3 per position."⟩]
  else []

/-- Rule 10: resume length. -/
def sugLength (resume_text : String) : List Suggestion :=
  let wc := (check_resume_length resume_text).1
  if wc < 200 then
    [⟨"warning", "Content Length",
      "Your resume seems too short (" ++ toString wc ++ " words). Add more details about your responsibilities, achievements, and projects."⟩]
  else if 1200 < wc then
    [⟨"info", "Content Length",
      "Your resume is quite long (" ++ toString wc ++ " words). For most roles, keep it to 1-2 pages. Prioritize the most relevant information."⟩]
  else []

/-- Model of Python `str.title()` (ASCII): a letter not preceded by a letter
is uppercased, other letters are lowercased. -/
def pyTitleAux : Bool → List Char → List Char
  | _, [] => []
  | prevAlpha, c :: cs =>
      (if isAlphaB c then (if prevAlpha then lowerChar c else upperChar c) else c) ::
        pyTitleAux (isAlphaB c) cs

def pyTitle (s : String) : String := String.mk (pyTitleAux false s.data)

/-- Rule 11: critical sections. -/
def sugSections (resume_text : String) : List Suggestion :=
  let missing_sections := (check_sections resume_text).2
  let critical := missing_sections.filter
    (fun s => s ∈ (["experience", "education", "skills"] : List String))
  if critical.isEmpty then []
  else [⟨"danger", "Resume Structure",
    "Missing critical sections: " ++ pyTitle (String.intercalate ", " critical) ++ ". These are essential for most job applications."⟩]

/-- Rule 12: contact information (two independent conditions). -/
def sugContact (resume_text : String) : List Suggestion :=
  let ci := check_contact_info resume_text
  (if !ci.email then
     [⟨"danger", "Contact Info",
       "No email address detected! Make sure your contact information is clearly visible at the top of your resume."⟩]
   else []) ++
  (if !ci.linkedin && !ci.github then
     [⟨"info", "Online Presence",
       "Consider adding LinkedIn or GitHub profiles to showcase your professional network and code samples."⟩]
   else [])

/-- Rule 13: skills in context. -/
def sugSkillsContext (resume_text : String) (matched_skills : List String) :
    List Suggestion :=
  if matched_skills.isEmpty then []
  else
    let ck := check_keyword_stuffing resume_text matched_skills
    if 0 < ck.2 ∧ (ck.1 : ℚ) / (ck.2 : ℚ) < 3 / 10 then
      [⟨"info", "Skills Integration",
        "Your skills appear to be listed but not demonstrated in context. Show how you used each skill in your experience descriptions."⟩]
    else []

/-- Rule 14: the always-present ATS tip. -/
def atsItem : Suggestion :=
  ⟨"info", "ATS Optimization",
    "For ATS compatibility: Use standard section headings, avoid tables/graphics, save as PDF, and include exact keywords from the job description."⟩

def sugATS : List Suggestion := [atsItem]

def eduItem : Suggestion :=
  ⟨"info", "Education",
    "This position may prefer advanced degrees. Emphasize relevant coursework, certifications, and hands-on project experience."⟩

/-- Rule 15: education match.  The inner condition requires `masters` in the
job-description education even when the outer test was satisfied by `phd`
alone. -/
def sugEducation (jd_education resume_edu : List String) : List Suggestion :=
  if "masters" ∈ jd_education ∨ "phd" ∈ jd_education then
    if "masters" ∈ jd_education ∧ "masters" ∉ resume_edu ∧ "phd" ∉ resume_edu then
      [eduItem]
    else []
  else []

/-- `generate_suggestions` (lines 100-292): the fixed rule cascade, in
source order, each rule appending its items. -/
def generate_suggestions (resume_text : String) (ar : AnalysisResults) :
    List Suggestion :=
  sugMatchScore ar.match_score ++
  sugHighPriority ar.high_priority_missing ++
  sugMissingProgramming ar.missing_categories ++
  sugMissingFrameworks ar.missing_categories ++
  sugMissingCloud ar.missing_categories ++
  sugExperienceLevel ar.jd_experience_level ++
  sugYearsRequired ar.jd_years_required ++
  sugActionVerbs resume_text ++
  sugMetrics resume_text ++
  sugLength resume_text ++
  sugSections resume_text ++
  sugContact resume_text ++
  sugSkillsContext resume_text ar.matched_skills ++
  sugATS ++
  sugEducation ar.jd_education ar.resume_education

/-- Category selector used to isolate one rule's items. -/
def catIs (c : String) (s : Suggestion) : Bool := s.category == c

/- ### Claim-side definitions -/

/-- Non-overlapping plain substring occurrence count (fuelled). -/
def countOccAux (needle : List Char) : Nat → List Char → Nat
  | 0, _ => 0
  | fuel + 1, t =>
      if needle.isPrefixOf t ∧ ¬ needle.isEmpty then
        1 + countOccAux needle fuel (t.drop needle.length)
      else
        match t with
        | [] => 0
        | _ :: cs => countOccAux needle fuel cs

def countOcc (needle hay : List Char) : Nat := countOccAux needle (hay.length + 1) hay

/-- Modelled from the claim wording of the action-verb rule: the total
number of occurrences (case-insensitive substring, every occurrence
counted) of the fixed action-verb list in the resume text.  This is the
count the claim attributes to the rule; the source's `check_action_verbs`
instead counts each verb at most once. -/
def claimed_verb_occurrences (resume_text : String) : Nat :=
  (ALL_ACTION_VERBS.map (fun v => countOcc v.data (toLowerStr resume_text).data)).sum

/-- Lowercased skill set of a list, for the set-algebra statements. -/
def lowSet (l : List String) : Finset String := (l.map toLowerStr).toFinset

/-- A minimal analysis record (all fields empty / neutral). -/
def arZero : AnalysisResults :=
  { match_score := 0, matched_skills := [], missing_skills := [], extra_skills := []
    high_priority_missing := []
    matched_categories := ⟨[], [], [], [], [], [], []⟩
    missing_categories := ⟨[], [], [], [], [], [], []⟩
    resume_skill_count := 0, jd_skill_count := 0
    jd_experience_level := "not specified", jd_years_required := none
    jd_education := [], resume_experience_level := "not specified"
    resume_education := [] }

/-- An analysis record whose job description requires only a PhD. -/
def arPhd : AnalysisResults := { arZero with jd_education := ["phd"] }

/- ### Verification lemmas and claim theorems -/

lemma lowerChar_idem (c : Char) : lowerChar (lowerChar c) = lowerChar c := by
  unfold lowerChar
  by_cases h : 65 ≤ c.toNat ∧ c.toNat ≤ 90
  · rw [if_pos h]
    obtain ⟨h1, h2⟩ := h
    set n := c.toNat with hn
    interval_cases n <;> decide
  · rw [if_neg h, if_neg h]

lemma toLowerStr_idem (s : String) : toLowerStr (toLowerStr s) = toLowerStr s := by
  unfold toLowerStr
  simp only [List.map_map]
  congr 1
  apply List.map_congr_left
  intro c _
  exact lowerChar_idem c

lemma toLowerStr_get_original_case (m : String) (hm : toLowerStr m = m) :
    toLowerStr (get_original_case m) = m := by
  unfold get_original_case
  cases hfind : ALL_SKILLS.find? (fun s => toLowerStr s == m) with
  | none => simpa [hfind] using hm
  | some v =>
      have hv := List.find?_some hfind
      simp only [beq_iff_eq] at hv
      simpa [hfind] using hv

lemma mem_lowered_fix {l : List String} {m : String} (hm : m ∈ l.map toLowerStr) :
    toLowerStr m = m := by
  obtain ⟨x, -, rfl⟩ := List.mem_map.mp hm
  exact toLowerStr_idem x

lemma map_get_original_lower {l : List String} (h : ∀ m ∈ l, toLowerStr m = m) :
    (l.map get_original_case).map toLowerStr = l := by
  rw [List.map_map]
  have : l.map (toLowerStr ∘ get_original_case) = l.map id :=
    List.map_congr_left (fun m hm => toLowerStr_get_original_case m (h m hm))
  simpa using this

/-- C1: the matched/missing/extra outputs of `calculate_match` partition the
inputs case-insensitively: matched and missing partition the lowercased
job-description skill set, matched and extra partition the lowercased
resume skill set. -/
theorem C1_match_partition (resume jd : List String) :
    lowSet (calculate_match resume jd).2.1 ∪ lowSet (calculate_match resume jd).2.2.1 =
      lowSet jd ∧
    lowSet (calculate_match resume jd).2.1 ∩ lowSet (calculate_match resume jd).2.2.1 = ∅ ∧
    lowSet (calculate_match resume jd).2.1 ∪ lowSet (calculate_match resume jd).2.2.2 =
      lowSet resume ∧
    lowSet (calculate_match resume jd).2.1 ∩ lowSet (calculate_match resume jd).2.2.2 = ∅ := by
  by_cases hjd : jd.isEmpty
  · have hjd' : jd = [] := List.isEmpty_iff.mp hjd
    subst hjd'
    simp [calculate_match, lowSet]
  · have hjd' : jd.isEmpty = false := by simpa using hjd
    have hrl : ∀ m ∈ pySet (resume.map toLowerStr), toLowerStr m = m := by
      intro m hm
      exact mem_lowered_fix (List.mem_dedup.mp hm)
    have hjl : ∀ m ∈ pySet (jd.map toLowerStr), toLowerStr m = m := by
      intro m hm
      exact mem_lowered_fix (List.mem_dedup.mp hm)
    simp only [calculate_match, hjd', Bool.false_eq_true, if_false, lowSet]
    rw [map_get_original_lower (fun m hm => hrl m (List.mem_of_mem_filter hm)),
        map_get_original_lower (fun m hm => hjl m (List.mem_of_mem_filter hm)),
        map_get_original_lower (fun m hm => hrl m (List.mem_of_mem_filter hm))]
    refine ⟨?_, ?_, ?_, ?_⟩ <;> ext x <;>
      simp [List.mem_filter, pySet, List.mem_dedup, List.elem_iff, -List.mem_map] <;> tauto

lemma pyRoundHalfEven_bounds {q : ℚ} (h0 : 0 ≤ q) (h1 : q ≤ 1000) :
    0 ≤ pyRoundHalfEven q ∧ pyRoundHalfEven q ≤ 1000 := by
  unfold pyRoundHalfEven
  have hf0 : (0 : ℤ) ≤ ⌊q⌋ := Int.floor_nonneg.mpr h0
  constructor
  · split_ifs <;> omega
  · by_cases heq : q = 1000
    · subst heq
      have hfl : ⌊(1000 : ℚ)⌋ = 1000 := by norm_num
      rw [hfl]
      norm_num
    · have hlt : q < 1000 := lt_of_le_of_ne h1 heq
      have hfl : ⌊q⌋ < 1000 := Int.floor_lt.mpr (by exact_mod_cast hlt)
      split_ifs <;> omega

lemma round1_bounds {x : ℚ} (h0 : 0 ≤ x) (h1 : x ≤ 100) :
    0 ≤ round1 x ∧ round1 x ≤ 100 := by
  unfold round1
  have h := pyRoundHalfEven_bounds (q := x * 10) (by positivity) (by linarith)
  constructor
  · have : (0 : ℚ) ≤ (pyRoundHalfEven (x * 10) : ℚ) := by exact_mod_cast h.1
    positivity
  · rw [div_le_iff₀ (by norm_num)]
    have : (pyRoundHalfEven (x * 10) : ℚ) ≤ 1000 := by exact_mod_cast h.2
    linarith

/-- C2: empty job-description skill list gives score `0.0`, empty matched
and missing lists, and extra equal to the resume list verbatim; a non-empty
job-description skill list gives a score between 0 and 100. -/
theorem C2_score_bounds (resume jd : List String) :
    (jd = [] → calculate_match resume jd = (0, [], [], resume)) ∧
    (jd ≠ [] → 0 ≤ (calculate_match resume jd).1 ∧ (calculate_match resume jd).1 ≤ 100) := by
  constructor
  · rintro rfl
    simp [calculate_match]
  · intro hne
    have hjd : jd.isEmpty = false := by simpa [List.isEmpty_iff] using hne
    simp only [calculate_match, hjd, Bool.false_eq_true, if_false]
    have hjlne : pySet (jd.map toLowerStr) ≠ [] := by
      intro h
      have := (List.dedup_eq_nil _).mp h
      simp only [List.map_eq_nil_iff] at this
      exact hne this
    have hjpos : 0 < ((pySet (jd.map toLowerStr)).length : ℚ) := by
      exact_mod_cast List.length_pos.mpr hjlne
    have hnd : ((pySet (resume.map toLowerStr)).filter
        (fun s => (pySet (jd.map toLowerStr)).contains s)).Nodup :=
      (List.nodup_dedup _).filter _
    have hsub : ((pySet (resume.map toLowerStr)).filter
        (fun s => (pySet (jd.map toLowerStr)).contains s)).toFinset ⊆
        (pySet (jd.map toLowerStr)).toFinset := by
      intro x hx
      simp only [List.mem_toFinset, List.mem_filter, List.elem_iff] at hx ⊢
      exact hx.2
    have hcard : ((pySet (resume.map toLowerStr)).filter
        (fun s => (pySet (jd.map toLowerStr)).contains s)).length ≤
        (pySet (jd.map toLowerStr)).length := by
      calc ((pySet (resume.map toLowerStr)).filter _).length
          = ((pySet (resume.map toLowerStr)).filter _).toFinset.card :=
            (List.toFinset_card_of_nodup hnd).symm
        _ ≤ (pySet (jd.map toLowerStr)).toFinset.card := Finset.card_le_card hsub
        _ = (pySet (jd.map toLowerStr)).length :=
            List.toFinset_card_of_nodup (List.nodup_dedup _)
    have hm0 : (0 : ℚ) ≤ (((pySet (resume.map toLowerStr)).filter
        (fun s => (pySet (jd.map toLowerStr)).contains s)).length : ℚ) := by positivity
    have hdiv : (((pySet (resume.map toLowerStr)).filter
        (fun s => (pySet (jd.map toLowerStr)).contains s)).length : ℚ) /
        ((pySet (jd.map toLowerStr)).length : ℚ) ≤ 1 := by
      rw [div_le_one hjpos]
      exact_mod_cast hcard
    have hb := round1_bounds (x := (((pySet (resume.map toLowerStr)).filter
        (fun s => (pySet (jd.map toLowerStr)).contains s)).length : ℚ) /
        ((pySet (jd.map toLowerStr)).length : ℚ) * 100)
      (by positivity) (by linarith)
    exact hb

/-- Witness for C2 at concrete inputs. -/
theorem C2_score_bounds_witness :
    calculate_match ["a"] [] = (0, [], [], ["a"]) ∧
    0 ≤ (calculate_match ["java"] ["python"]).1 ∧
    (calculate_match ["java"] ["python"]).1 ≤ 100 :=
  ⟨(C2_score_bounds ["a"] []).1 rfl,
   (C2_score_bounds ["java"] ["python"]).2 (by decide)⟩

lemma listLeB_total (x y : List Char) : listLeB x y = true ∨ listLeB y x = true := by
  induction x generalizing y with
  | nil => left; simp [listLeB]
  | cons a as ih =>
      cases y with
      | nil => right; simp [listLeB]
      | cons b bs =>
          rcases Nat.lt_trichotomy a.toNat b.toNat with h | h | h
          · left
            simp [listLeB, h]
          · rcases ih bs with h' | h'
            · left
              simpa [listLeB, h, Nat.lt_irrefl] using h'
            · right
              simpa [listLeB, h, Nat.lt_irrefl] using h'
          · right
            simp [listLeB, h]

lemma listLeB_trans {x y z : List Char} (h1 : listLeB x y = true)
    (h2 : listLeB y z = true) : listLeB x z = true := by
  induction x generalizing y z with
  | nil => simp [listLeB]
  | cons a as ih =>
      cases y with
      | nil => simp [listLeB] at h1
      | cons b bs =>
          cases z with
          | nil => simp [listLeB] at h2
          | cons c cs =>
              simp only [listLeB] at h1 h2 ⊢
              rcases Nat.lt_trichotomy a.toNat b.toNat with hab | hab | hab <;>
                rcases Nat.lt_trichotomy b.toNat c.toNat with hbc | hbc | hbc
              · simp [show a.toNat < c.toNat from by omega]
              · simp [show a.toNat < c.toNat from by omega]
              · simp [show ¬ b.toNat < c.toNat from by omega, hbc] at h2
              · simp [show a.toNat < c.toNat from by omega]
              · simp only [show ¬ a.toNat < b.toNat from by omega,
                  show ¬ b.toNat < a.toNat from by omega, if_false, if_neg] at h1
                simp only [show ¬ b.toNat < c.toNat from by omega,
                  show ¬ c.toNat < b.toNat from by omega, if_false, if_neg] at h2
                simp only [show ¬ a.toNat < c.toNat from by omega,
                  show ¬ c.toNat < a.toNat from by omega, if_false, if_neg]
                exact ih h1 h2
              · simp [show ¬ b.toNat < c.toNat from by omega, hbc] at h2
              · simp [show ¬ a.toNat < b.toNat from by omega, hab] at h1
              · simp [show ¬ a.toNat < b.toNat from by omega, hab] at h1
              · simp [show ¬ a.toNat < b.toNat from by omega, hab] at h1

lemma pySorted_sorted (l : List String) :
    List.Sorted (fun a b => strLeB a b = true) (pySorted l) := by
  haveI : IsTotal String (fun a b => strLeB a b = true) :=
    ⟨fun a b => listLeB_total a.data b.data⟩
  haveI : IsTrans String (fun a b => strLeB a b = true) :=
    ⟨fun _ _ _ h1 h2 => listLeB_trans h1 h2⟩
  exact List.sorted_insertionSort _ l

/-- C3 counterexample: with an empty job-description skill list the extra
list is returned verbatim, neither restored to vocabulary casing (the
canonical form of `"Python"` is `"python"`) nor sorted. -/
theorem C3_counterexample :
    (calculate_match ["Python", "MYSQL"] []).2.2.2 = ["Python", "MYSQL"] ∧
    get_original_case (toLowerStr "Python") = "python" ∧
    ¬ List.Sorted (fun a b => strLeB a b = true)
      ((calculate_match ["Python", "MYSQL"] []).2.2.2) :=
  ⟨by decide, by decide, by decide⟩

/-- C3 amended: with a non-empty job-description skill list every string in
the three returned lists is in vocabulary canonical casing (it is the fixed
point of canonicalization); the lexicographic sorting happens in
`analyze_resume`, whose four skill-list fields are always sorted. -/
theorem C3_casing_and_sorting :
    (∀ resume jd s, jd ≠ [] →
        (s ∈ (calculate_match resume jd).2.1 ∨ s ∈ (calculate_match resume jd).2.2.1 ∨
          s ∈ (calculate_match resume jd).2.2.2) →
        s = get_original_case (toLowerStr s)) ∧
    (∀ rt jt,
        List.Sorted (fun a b => strLeB a b = true) (analyze_resume rt jt).matched_skills ∧
        List.Sorted (fun a b => strLeB a b = true) (analyze_resume rt jt).missing_skills ∧
        List.Sorted (fun a b => strLeB a b = true) (analyze_resume rt jt).extra_skills ∧
        List.Sorted (fun a b => strLeB a b = true)
          (analyze_resume rt jt).high_priority_missing) := by
  constructor
  · intro resume jd s hne hmem
    have hjd : jd.isEmpty = false := by simpa [List.isEmpty_iff] using hne
    simp only [calculate_match, hjd, Bool.false_eq_true, if_false] at hmem
    have main : ∀ l : List String, (∀ m ∈ l, toLowerStr m = m) →
        s ∈ l.map get_original_case → s = get_original_case (toLowerStr s) := by
      intro l hl hs
      obtain ⟨m, hm, rfl⟩ := List.mem_map.mp hs
      rw [toLowerStr_get_original_case m (hl m hm)]
    rcases hmem with h | h | h
    · exact main _ (fun m hm => mem_lowered_fix (List.mem_dedup.mp (List.mem_of_mem_filter hm))) h
    · exact main _ (fun m hm => mem_lowered_fix (List.mem_dedup.mp (List.mem_of_mem_filter hm))) h
    · exact main _ (fun m hm => mem_lowered_fix (List.mem_dedup.mp (List.mem_of_mem_filter hm))) h
  · intro rt jt
    exact ⟨pySorted_sorted _, pySorted_sorted _, pySorted_sorted _, pySorted_sorted _⟩

/-- Witness for the amended C3 at a concrete input. -/
theorem C3_casing_witness :
    "python" ∈ (calculate_match ["PYTHON"] ["python", "sql"]).2.1 ∧
    "python" = get_original_case (toLowerStr "python") :=
  ⟨by decide,
   C3_casing_and_sorting.1 ["PYTHON"] ["python", "sql"] "python" (by decide)
     (Or.inl (by decide))⟩

lemma foldl_min_spec (t : List Nat) : ∀ h : Nat,
    t.foldl min h ∈ h :: t ∧ ∀ y ∈ h :: t, t.foldl min h ≤ y := by
  induction t with
  | nil => intro h; exact ⟨List.mem_singleton.mpr rfl, by simp⟩
  | cons a t' ih =>
      intro h
      obtain ⟨ihm, ihb⟩ := ih (min h a)
      constructor
      · rcases List.mem_cons.mp ihm with he | ht
        · rw [List.foldl_cons, he]
          simp only [List.mem_cons]
          omega
        · exact List.mem_cons_of_mem _ (List.mem_cons_of_mem _ ht)
      · intro y hy
        have hmin := ihb (min h a) (List.mem_cons_self _ _)
        rcases List.mem_cons.mp hy with hy1 | hy'
        · subst hy1
          rw [List.foldl_cons]
          exact le_trans hmin (min_le_left _ _)
        · rcases List.mem_cons.mp hy' with hy2 | hy''
          · subst hy2
            rw [List.foldl_cons]
            exact le_trans hmin (min_le_right _ _)
          · rw [List.foldl_cons]
            exact ihb y (List.mem_cons_of_mem _ hy'')

/-- C4: `extract_years_experience` returns the minimum of all integers
captured across the three patterns, absent exactly when nothing was
captured; a text containing both a range `3-5 years` and `7+ years` yields
3 (the patterns capture 5, 7 and 3 there). -/
theorem C4_years_minimum :
    (∀ text, extract_years_experience text = none ↔ yearsCaptured text = []) ∧
    (∀ text m, extract_years_experience text = some m →
        m ∈ yearsCaptured text ∧ ∀ y ∈ yearsCaptured text, m ≤ y) ∧
    extract_years_experience "3-5 years and 7+ years" = some 3 ∧
    yearsCaptured "3-5 years and 7+ years" = [5, 7, 3] := by
  refine ⟨?_, ?_, by decide, by decide⟩
  · intro text
    unfold extract_years_experience
    cases yearsCaptured text <;> simp
  · intro text m hm
    unfold extract_years_experience at hm
    cases hcap : yearsCaptured text with
    | nil => rw [hcap] at hm; exact absurd hm (by simp)
    | cons h t =>
        rw [hcap] at hm
        have hm' : t.foldl min h = m := by simpa using hm
        rw [← hm']
        exact foldl_min_spec t h

/-- Witness for C4 at the concrete text. -/
theorem C4_years_minimum_witness :
    extract_years_experience "3-5 years and 7+ years" = some 3 ∧
    3 ∈ yearsCaptured "3-5 years and 7+ years" :=
  ⟨C4_years_minimum.2.2.1,
   (C4_years_minimum.2.1 "3-5 years and 7+ years" 3 C4_years_minimum.2.2.1).1⟩

/-- C5: the experience-level detector returns `senior` if any senior
keyword is a substring of the lowercased text, else `mid` if any mid
keyword is, else `entry` if any entry keyword is, else `not specified`. -/
theorem C5_experience_priority (text : String) :
    detect_experience_level text =
      (if (((EXPERIENCE_LEVELS.lookup "senior").getD []).any
            (fun k => substrS k (toLowerStr text))) then "senior"
       else if (((EXPERIENCE_LEVELS.lookup "mid").getD []).any
            (fun k => substrS k (toLowerStr text))) then "mid"
       else if (((EXPERIENCE_LEVELS.lookup "entry").getD []).any
            (fun k => substrS k (toLowerStr text))) then "entry"
       else "not specified") := by
  unfold detect_experience_level
  simp only [EXPERIENCE_LEVELS, List.foldl_cons, List.foldl_nil, List.lookup]
  cases hE : (["entry level", "junior", "associate", "intern", "internship",
      "fresher", "graduate", "0-1 years", "0-2 years", "beginner"] : List String).any
      (fun k => substrS k (toLowerStr text)) <;>
    cases hM : (["mid level", "mid-level", "intermediate", "2-4 years", "3-5 years",
      "2+ years", "3+ years", "4+ years"] : List String).any
      (fun k => substrS k (toLowerStr text)) <;>
    cases hS : (["senior", "lead", "principal", "staff", "architect",
      "5+ years", "6+ years", "7+ years", "8+ years", "10+ years",
      "expert", "advanced"] : List String).any
      (fun k => substrS k (toLowerStr text)) <;>
    simp [hE, hM, hS]

lemma filter_catIs_eq_nil {c : String} {l : List Suggestion}
    (h : ∀ s ∈ l, s.category ≠ c) : l.filter (catIs c) = [] :=
  List.filter_eq_nil_iff.mpr (fun s hs => by simp [catIs, h s hs])

lemma scoreBandItem_cat (ms : ℚ) : (scoreBandItem ms).category = "Match Score" := by
  unfold scoreBandItem
  split_ifs <;> rfl

lemma sugMatchScore_cat {ms s} (hs : s ∈ sugMatchScore ms) : s.category = "Match Score" := by
  simp only [sugMatchScore, List.mem_singleton] at hs
  rw [hs, scoreBandItem_cat]

lemma sugHighPriority_cat {hpm s} (hs : s ∈ sugHighPriority hpm) :
    s.category = "Critical Skills Gap" := by
  simp only [sugHighPriority] at hs
  split at hs <;> simp_all

lemma sugMissingProgramming_cat {mc s} (hs : s ∈ sugMissingProgramming mc) :
    s.category = "Programming Languages" := by
  simp only [sugMissingProgramming] at hs
  split at hs <;> simp_all

lemma sugMissingFrameworks_cat {mc s} (hs : s ∈ sugMissingFrameworks mc) :
    s.category = "Frameworks" := by
  simp only [sugMissingFrameworks] at hs
  split at hs <;> simp_all

lemma sugMissingCloud_cat {mc s} (hs : s ∈ sugMissingCloud mc) :
    s.category = "Cloud/DevOps" := by
  simp only [sugMissingCloud] at hs
  split at hs <;> simp_all

lemma sugExperienceLevel_cat {jel s} (hs : s ∈ sugExperienceLevel jel) :
    s.category = "Experience Level" := by
  simp only [sugExperienceLevel] at hs
  split at hs <;> simp_all

lemma sugYearsRequired_cat {jyr s} (hs : s ∈ sugYearsRequired jyr) :
    s.category = "Years Required" := by
  simp only [sugYearsRequired] at hs
  split at hs <;> (try split at hs) <;> simp_all

lemma sugActionVerbs_cat {rt s} (hs : s ∈ sugActionVerbs rt) :
    s.category = "Action Verbs" := by
  simp only [sugActionVerbs] at hs
  split at hs <;> (try split at hs) <;> simp_all [avWarnItem, avInfoItem]

lemma sugMetrics_cat {rt s} (hs : s ∈ sugMetrics rt) :
    s.category = "Quantifiable Results" := by
  simp only [sugMetrics] at hs
  split at hs <;> (try split at hs) <;> simp_all

lemma sugLength_cat {rt s} (hs : s ∈ sugLength rt) : s.category = "Content Length" := by
  simp only [sugLength] at hs
  split at hs <;> (try split at hs) <;> simp_all

lemma sugSections_cat {rt s} (hs : s ∈ sugSections rt) :
    s.category = "Resume Structure" := by
  simp only [sugSections] at hs
  split at hs <;> simp_all

lemma sugContact_cat {rt s} (hs : s ∈ sugContact rt) :
    s.category = "Contact Info" ∨ s.category = "Online Presence" := by
  simp only [sugContact] at hs
  rcases List.mem_append.mp hs with h | h <;> split at h <;> simp_all

lemma sugSkillsContext_cat {rt ms s} (hs : s ∈ sugSkillsContext rt ms) :
    s.category = "Skills Integration" := by
  simp only [sugSkillsContext] at hs
  split at hs <;> (try split at hs) <;> simp_all

lemma sugATS_cat {s} (hs : s ∈ sugATS) : s.category = "ATS Optimization" := by
  simp only [sugATS, atsItem, List.mem_singleton] at hs
  rw [hs]

lemma sugEducation_cat {jde redu s} (hs : s ∈ sugEducation jde redu) :
    s.category = "Education" := by
  simp only [sugEducation] at hs
  split at hs <;> (try split at hs) <;> simp_all [eduItem]

/-- Filtering the cascade by a category distributes over the rule blocks. -/
lemma filter_gs (c : String) (rt : String) (ar : AnalysisResults) :
    (generate_suggestions rt ar).filter (catIs c) =
      (sugMatchScore ar.match_score).filter (catIs c) ++
      (sugHighPriority ar.high_priority_missing).filter (catIs c) ++
      (sugMissingProgramming ar.missing_categories).filter (catIs c) ++
      (sugMissingFrameworks ar.missing_categories).filter (catIs c) ++
      (sugMissingCloud ar.missing_categories).filter (catIs c) ++
      (sugExperienceLevel ar.jd_experience_level).filter (catIs c) ++
      (sugYearsRequired ar.jd_years_required).filter (catIs c) ++
      (sugActionVerbs rt).filter (catIs c) ++
      (sugMetrics rt).filter (catIs c) ++
      (sugLength rt).filter (catIs c) ++
      (sugSections rt).filter (catIs c) ++
      (sugContact rt).filter (catIs c) ++
      (sugSkillsContext rt ar.matched_skills).filter (catIs c) ++
      sugATS.filter (catIs c) ++
      (sugEducation ar.jd_education ar.resume_education).filter (catIs c) := by
  unfold generate_suggestions
  simp only [List.filter_append]

lemma fn_sugMatchScore {c : String} (hc : c ≠ "Match Score") (ms : ℚ) :
    (sugMatchScore ms).filter (catIs c) = [] :=
  filter_catIs_eq_nil (fun s hs => by rw [sugMatchScore_cat hs]; exact Ne.symm hc)

lemma fn_sugHighPriority {c : String} (hc : c ≠ "Critical Skills Gap") (hpm : List String) :
    (sugHighPriority hpm).filter (catIs c) = [] :=
  filter_catIs_eq_nil (fun s hs => by rw [sugHighPriority_cat hs]; exact Ne.symm hc)

lemma fn_sugMissingProgramming {c : String} (hc : c ≠ "Programming Languages") (mc : Categories) :
    (sugMissingProgramming mc).filter (catIs c) = [] :=
  filter_catIs_eq_nil (fun s hs => by rw [sugMissingProgramming_cat hs]; exact Ne.symm hc)

lemma fn_sugMissingFrameworks {c : String} (hc : c ≠ "Frameworks") (mc : Categories) :
    (sugMissingFrameworks mc).filter (catIs c) = [] :=
  filter_catIs_eq_nil (fun s hs => by rw [sugMissingFrameworks_cat hs]; exact Ne.symm hc)

lemma fn_sugMissingCloud {c : String} (hc : c ≠ "Cloud/DevOps") (mc : Categories) :
    (sugMissingCloud mc).filter (catIs c) = [] :=
  filter_catIs_eq_nil (fun s hs => by rw [sugMissingCloud_cat hs]; exact Ne.symm hc)

lemma fn_sugExperienceLevel {c : String} (hc : c ≠ "Experience Level") (jel : String) :
    (sugExperienceLevel jel).filter (catIs c) = [] :=
  filter_catIs_eq_nil (fun s hs => by rw [sugExperienceLevel_cat hs]; exact Ne.symm hc)

lemma fn_sugYearsRequired {c : String} (hc : c ≠ "Years Required") (jyr : Option Nat) :
    (sugYearsRequired jyr).filter (catIs c) = [] :=
  filter_catIs_eq_nil (fun s hs => by rw [sugYearsRequired_cat hs]; exact Ne.symm hc)

lemma fn_sugActionVerbs {c : String} (hc : c ≠ "Action Verbs") (rt : String) :
    (sugActionVerbs rt).filter (catIs c) = [] :=
  filter_catIs_eq_nil (fun s hs => by rw [sugActionVerbs_cat hs]; exact Ne.symm hc)

lemma fn_sugMetrics {c : String} (hc : c ≠ "Quantifiable Results") (rt : String) :
    (sugMetrics rt).filter (catIs c) = [] :=
  filter_catIs_eq_nil (fun s hs => by rw [sugMetrics_cat hs]; exact Ne.symm hc)

lemma fn_sugLength {c : String} (hc : c ≠ "Content Length") (rt : String) :
    (sugLength rt).filter (catIs c) = [] :=
  filter_catIs_eq_nil (fun s hs => by rw [sugLength_cat hs]; exact Ne.symm hc)

lemma fn_sugSections {c : String} (hc : c ≠ "Resume Structure") (rt : String) :
    (sugSections rt).filter (catIs c) = [] :=
  filter_catIs_eq_nil (fun s hs => by rw [sugSections_cat hs]; exact Ne.symm hc)

lemma fn_sugContact {c : String} (hc1 : c ≠ "Contact Info") (hc2 : c ≠ "Online Presence")
    (rt : String) : (sugContact rt).filter (catIs c) = [] :=
  filter_catIs_eq_nil (fun s hs => by
    rcases sugContact_cat hs with h | h <;> rw [h]
    · exact Ne.symm hc1
    · exact Ne.symm hc2)

lemma fn_sugSkillsContext {c : String} (hc : c ≠ "Skills Integration") (rt : String)
    (ms : List String) : (sugSkillsContext rt ms).filter (catIs c) = [] :=
  filter_catIs_eq_nil (fun s hs => by rw [sugSkillsContext_cat hs]; exact Ne.symm hc)

lemma fn_sugATS {c : String} (hc : c ≠ "ATS Optimization") :
    sugATS.filter (catIs c) = [] :=
  filter_catIs_eq_nil (fun s hs => by rw [sugATS_cat hs]; exact Ne.symm hc)

lemma fn_sugEducation {c : String} (hc : c ≠ "Education") (jde redu : List String) :
    (sugEducation jde redu).filter (catIs c) = [] :=
  filter_catIs_eq_nil (fun s hs => by rw [sugEducation_cat hs]; exact Ne.symm hc)

lemma filter_gs_action (rt : String) (ar : AnalysisResults) :
    (generate_suggestions rt ar).filter (catIs "Action Verbs") = sugActionVerbs rt := by
  have hself : (sugActionVerbs rt).filter (catIs "Action Verbs") = sugActionVerbs rt :=
    List.filter_eq_self.mpr (fun s hs => by simp [catIs, sugActionVerbs_cat hs])
  rw [filter_gs]
  simp only [@fn_sugMatchScore "Action Verbs" (by decide),
    @fn_sugHighPriority "Action Verbs" (by decide),
    @fn_sugMissingProgramming "Action Verbs" (by decide),
    @fn_sugMissingFrameworks "Action Verbs" (by decide),
    @fn_sugMissingCloud "Action Verbs" (by decide),
    @fn_sugExperienceLevel "Action Verbs" (by decide),
    @fn_sugYearsRequired "Action Verbs" (by decide),
    @fn_sugMetrics "Action Verbs" (by decide),
    @fn_sugLength "Action Verbs" (by decide),
    @fn_sugSections "Action Verbs" (by decide),
    @fn_sugContact "Action Verbs" (by decide) (by decide),
    @fn_sugSkillsContext "Action Verbs" (by decide),
    @fn_sugATS "Action Verbs" (by decide),
    @fn_sugEducation "Action Verbs" (by decide), hself]
  simp

lemma filter_gs_education (rt : String) (ar : AnalysisResults) :
    (generate_suggestions rt ar).filter (catIs "Education") =
      sugEducation ar.jd_education ar.resume_education := by
  have hself : (sugEducation ar.jd_education ar.resume_education).filter (catIs "Education") =
      sugEducation ar.jd_education ar.resume_education :=
    List.filter_eq_self.mpr (fun s hs => by simp [catIs, sugEducation_cat hs])
  rw [filter_gs]
  simp only [@fn_sugMatchScore "Education" (by decide),
    @fn_sugHighPriority "Education" (by decide),
    @fn_sugMissingProgramming "Education" (by decide),
    @fn_sugMissingFrameworks "Education" (by decide),
    @fn_sugMissingCloud "Education" (by decide),
    @fn_sugExperienceLevel "Education" (by decide),
    @fn_sugYearsRequired "Education" (by decide),
    @fn_sugActionVerbs "Education" (by decide),
    @fn_sugMetrics "Education" (by decide),
    @fn_sugLength "Education" (by decide),
    @fn_sugSections "Education" (by decide),
    @fn_sugContact "Education" (by decide) (by decide),
    @fn_sugSkillsContext "Education" (by decide),
    @fn_sugATS "Education" (by decide), hself]
  simp

lemma filter_gs_match (rt : String) (ar : AnalysisResults) :
    (generate_suggestions rt ar).filter (catIs "Match Score") =
      [scoreBandItem ar.match_score] := by
  have hself : (sugMatchScore ar.match_score).filter (catIs "Match Score") =
      sugMatchScore ar.match_score :=
    List.filter_eq_self.mpr (fun s hs => by simp [catIs, sugMatchScore_cat hs])
  rw [filter_gs]
  simp only [@fn_sugHighPriority "Match Score" (by decide),
    @fn_sugMissingProgramming "Match Score" (by decide),
    @fn_sugMissingFrameworks "Match Score" (by decide),
    @fn_sugMissingCloud "Match Score" (by decide),
    @fn_sugExperienceLevel "Match Score" (by decide),
    @fn_sugYearsRequired "Match Score" (by decide),
    @fn_sugActionVerbs "Match Score" (by decide),
    @fn_sugMetrics "Match Score" (by decide),
    @fn_sugLength "Match Score" (by decide),
    @fn_sugSections "Match Score" (by decide),
    @fn_sugContact "Match Score" (by decide) (by decide),
    @fn_sugSkillsContext "Match Score" (by decide),
    @fn_sugATS "Match Score" (by decide),
    @fn_sugEducation "Match Score" (by decide), hself]
  simp [sugMatchScore]

lemma isEmpty_filter_eq_all_not {α : Type} (l : List α) (p : α → Bool) :
    (l.filter p).isEmpty = l.all (fun a => !p a) := by
  induction l with
  | nil => rfl
  | cons a t ih => by_cases h : p a <;> simp [List.filter_cons, h, ih]

/-- The total of `check_action_verbs` counts each verb of the list at most
once: it is the number of distinct verbs present as substrings. -/
lemma check_action_verbs_total (rt : String) :
    (check_action_verbs rt).2 =
      (ALL_ACTION_VERBS.filter (fun v => substrS v (toLowerStr rt))).length := by
  unfold check_action_verbs ALL_ACTION_VERBS
  simp only [List.map_map, List.filter_flatten, List.length_flatten, Function.comp]
  rfl

lemma check_action_verbs_weak (rt : String) :
    ((check_action_verbs rt).1.filter (fun p => p.2.isEmpty)).map (fun p => p.1) =
      (ACTION_VERBS.filter
        (fun p => p.2.all (fun v => !substrS v (toLowerStr rt)))).map (fun p => p.1) := by
  unfold check_action_verbs
  rw [List.filter_map, List.map_map]
  have hfc : ACTION_VERBS.filter ((fun p : String × List String => p.2.isEmpty) ∘
      (fun p : String × List String =>
        (p.1, p.2.filter (fun v => substrS v (toLowerStr rt))))) =
      ACTION_VERBS.filter (fun p => p.2.all (fun v => !substrS v (toLowerStr rt))) := by
    apply List.filter_congr
    intro p _
    simp only [Function.comp]
    exact isEmpty_filter_eq_all_not _ _
  rw [hfc]
  rfl

lemma isEmpty_map {α β : Type} (f : α → β) (l : List α) :
    (l.map f).isEmpty = l.isEmpty := by
  cases l <;> rfl

/-- C6 counterexample: a resume with ten occurrences of the single verb
`led` has a claimed occurrence count of 10 (which per the claim would emit
no item), yet `check_action_verbs` totals 1 and the engine emits the
below-five warning. -/
theorem C6_counterexample :
    claimed_verb_occurrences "led led led led led led led led led led" = 10 ∧
    (check_action_verbs "led led led led led led led led led led").2 = 1 ∧
    (generate_suggestions "led led led led led led led led led led" arZero).filter
      (catIs "Action Verbs") = [avWarnItem] :=
  ⟨by decide, by decide, by decide⟩

/-- C6 amended: the action-verb rule counts the number of DISTINCT verbs of
the fixed list present as case-insensitive substrings (each verb at most
once, regardless of its number of occurrences); a count below 5 yields the
warning item, 5..9 yields the info item naming the zero-hit categories when
one exists, 10 or more yields no item. -/
theorem C6_action_verbs (rt : String) (ar : AnalysisResults) :
    (generate_suggestions rt ar).filter (catIs "Action Verbs") =
      (if (ALL_ACTION_VERBS.filter (fun v => substrS v (toLowerStr rt))).length < 5 then
        [avWarnItem]
      else if (ALL_ACTION_VERBS.filter (fun v => substrS v (toLowerStr rt))).length < 10 then
        (if (ACTION_VERBS.filter
              (fun p => p.2.all (fun v => !substrS v (toLowerStr rt)))).isEmpty then []
         else [avInfoItem ((ACTION_VERBS.filter
              (fun p => p.2.all (fun v => !substrS v (toLowerStr rt)))).map (fun p => p.1))])
      else []) ∧
    (check_action_verbs rt).2 =
      (ALL_ACTION_VERBS.filter (fun v => substrS v (toLowerStr rt))).length := by
  refine ⟨?_, check_action_verbs_total rt⟩
  rw [filter_gs_action]
  simp only [sugActionVerbs]
  rw [check_action_verbs_total, check_action_verbs_weak]
  simp only [isEmpty_map]

/-- C7 counterexample: a job description whose education set is only `phd`
and a resume with neither advanced degree produce no Education item. -/
theorem C7_counterexample :
    ("phd" ∈ arPhd.jd_education ∧ "masters" ∉ arPhd.resume_education ∧
      "phd" ∉ arPhd.resume_education) ∧
    eduItem ∉ generate_suggestions "" arPhd ∧
    (generate_suggestions "" arPhd).filter (catIs "Education") = [] :=
  ⟨by decide, by decide, by decide⟩

/-- C7 amended: the education info item is emitted exactly when the
job-description education set contains `masters` and the resume education
set contains neither `masters` nor `phd`; a job description mentioning only
`phd` never triggers it. -/
theorem C7_education_rule (rt : String) (ar : AnalysisResults) :
    (generate_suggestions rt ar).filter (catIs "Education") =
      (if "masters" ∈ ar.jd_education ∧ "masters" ∉ ar.resume_education ∧
          "phd" ∉ ar.resume_education then [eduItem] else []) := by
  rw [filter_gs_education]
  unfold sugEducation
  by_cases hI : "masters" ∈ ar.jd_education ∧ "masters" ∉ ar.resume_education ∧
      "phd" ∉ ar.resume_education
  · rw [if_pos (Or.inl hI.1), if_pos hI]
  · by_cases hO : "masters" ∈ ar.jd_education ∨ "phd" ∈ ar.jd_education
    · rw [if_pos hO, if_neg hI]
    · rw [if_neg hO, if_neg hI]

/-- C9: the cascade always begins with the single score-band item (the four
bands are mutually exclusive and exhaustive), always contains the static
ATS item, and therefore always has at least two items. -/
theorem C9_minimum_items (rt : String) (ar : AnalysisResults) :
    (generate_suggestions rt ar).head? = some (scoreBandItem ar.match_score) ∧
    (generate_suggestions rt ar).filter (catIs "Match Score") =
      [scoreBandItem ar.match_score] ∧
    atsItem ∈ generate_suggestions rt ar ∧
    2 ≤ (generate_suggestions rt ar).length ∧
    ((scoreBandItem ar.match_score).type = "success" ↔ 80 ≤ ar.match_score) ∧
    ((scoreBandItem ar.match_score).type = "info" ↔
      (60 ≤ ar.match_score ∧ ¬ 80 ≤ ar.match_score)) ∧
    ((scoreBandItem ar.match_score).type = "warning" ↔
      (40 ≤ ar.match_score ∧ ¬ 60 ≤ ar.match_score)) ∧
    ((scoreBandItem ar.match_score).type = "danger" ↔ ar.match_score < 40) := by
  refine ⟨rfl, filter_gs_match rt ar, ?_, ?_, ?_, ?_, ?_, ?_⟩
  · simp [generate_suggestions, sugATS, List.mem_append]
  · simp only [generate_suggestions, List.length_append, sugMatchScore, sugATS,
      List.length_singleton]
    omega
  · unfold scoreBandItem
    split_ifs with h1 h2 h3 <;> simp_all <;> first | linarith | (intro h; linarith)
  · unfold scoreBandItem
    split_ifs with h1 h2 h3 <;> simp_all <;> first | linarith | (intro h; linarith)
  · unfold scoreBandItem
    split_ifs with h1 h2 h3 <;> simp_all <;> first | linarith | (intro h; linarith)
  · unfold scoreBandItem
    split_ifs with h1 h2 h3 <;> simp_all <;> first | linarith | (intro h; linarith)

/-- C8: extracting skills from `"I use js daily"` yields a set containing
`"javascript"`: the alias loop appends the canonical expansion of the token
`js` to the end of the normalized text (the original token is kept), where
the boundary-aware matcher finds it. -/
theorem C8_alias_expansion :
    aliasExpand (preprocessChars ("I use js daily").data) =
      ("i use js daily javascript").data ∧
    "javascript" ∈ extract_skills "I use js daily" :=
  ⟨by decide, by decide⟩

/-- C10: in `"python python"` the skill occurs twice (plain substring count
2), but each bounded-pattern match consumes the boundary space that would
open the next match, so `get_skill_frequency` reports 1; consequently a
job-description skill mentioned only in such adjacent positions stays below
the frequency-2 threshold and is not high-priority missing. -/
theorem C10_adjacent_frequency :
    countOcc "python".data (preprocessChars ("python python").data) = 2 ∧
    get_skill_frequency "python python" ["python"] = [("python", 1)] ∧
    (analyze_resume "java" "python python").missing_skills = ["python"] ∧
    (analyze_resume "java" "python python").high_priority_missing = [] :=
  ⟨by decide, by decide, by decide, by decide⟩
